import Mathlib

/-!
Shallow embedding of the position-and-risk management core of the
Auto_StockAgent trading system, together with proofs of the testable
properties stated in its specification.

Prices, percentages and scores are modelled as rationals (`ℚ`); the
JavaScript numbers in the source are IEEE doubles, but every branch
condition proved about here is far from any rounding boundary.
All definitions are direct translations of the JavaScript source:
* `PositionManager` (position-manager module): `Position`, `addPosition`,
  `updatePrice`, `checkTakeProfitLevels`, `calculatePositionSize`.
* `MarketRegimeFilter` (market-regime-filter.js): `getVIXData`,
  `getSPYTrend`, `getTradingSession`, `determineRegime`.
* `EnhancedMultiFactorScreener` (enhanced-multi-factor-screener module):
  `calculateScore`, `getRecommendation`, `getConfidence`.
* `VolatilityAnalyzer` (volatility-analyzer.js): `calculateVolatilityScore`.
* `EnhancedTrader` (enhanced-trader.js): the per-holding slice of
  `manageExistingPositions` plus the position-map effect of `executeSell`.
-/

/-! ## Position Manager: configuration (position-manager, `this.config`) -/

/-- `config.trailingStop.activationProfit`: trailing stop arms at +2% profit. -/
def activationProfit : ℚ := 2

/-- `config.trailingStop.trailingPercent`: exit 1.5% below the high-water mark. -/
def trailingPercent : ℚ := 3 / 2

/-- `config.trailingStop.initialStopLoss`: initial stop at -3% return. -/
def initialStopLoss : ℚ := -3

/-- `config.trailingStop.breakEvenMove`: stop moves to break-even at +1% profit. -/
def breakEvenMove : ℚ := 1

/-- `config.positionSizing.maxPositionPercent`. -/
def maxPositionPercent : ℚ := 5

/-- `config.positionSizing.minPositionPercent`. -/
def minPositionPercent : ℚ := 1

/-! ## Position Manager: positions and price updates -/

/-- One record of `this.positions` in the position manager
(`entryTime` is omitted: no decision logic reads it). -/
structure Position where
  entryPrice : ℚ
  quantity : ℕ
  score : ℚ
  highestPrice : ℚ
  lowestPrice : ℚ
  trailingStopActive : Bool
  currentStopLoss : ℚ
  takeProfitLevelsHit : List ℕ
deriving DecidableEq

/-- The `action` field of an `updatePrice` result. -/
inductive UpdateAction where
  | HOLD
  | STOP_LOSS
  | TRAILING_STOP
  | TAKE_PROFIT_L1
  | TAKE_PROFIT_L2
  | TAKE_PROFIT_L3
deriving DecidableEq

/-- The decision part of an `updatePrice` result (the echoed price fields
are omitted; `sellPercent` is set only by the take-profit branch). -/
structure UpdateResult where
  action : UpdateAction
  profitPercent : ℚ
  sellPercent : Option ℚ
deriving DecidableEq

/-- `PositionManager.addPosition(symbol, entryPrice, quantity, score)`:
the fresh record stored in the position map. -/
def addPosition (entryPrice : ℚ) (quantity : ℕ) (score : ℚ) : Position :=
  { entryPrice := entryPrice
    quantity := quantity
    score := score
    highestPrice := entryPrice
    lowestPrice := entryPrice
    trailingStopActive := false
    currentStopLoss := entryPrice * (1 + initialStopLoss / 100)
    takeProfitLevelsHit := [] }

/-- `PositionManager._checkTakeProfitLevels(position, profitPercent)`:
checks level 3, then 2, then 1; fires a level only when its threshold is
met and its identifier is not yet in `takeProfitLevelsHit`, appending the
identifier when it fires.  Returns the updated position together with the
fired action and its configured `sellPercent`, if any. -/
def checkTakeProfitLevels (p : Position) (profitPercent : ℚ) :
    Position × Option (UpdateAction × ℚ) :=
  if 10 ≤ profitPercent ∧ 3 ∉ p.takeProfitLevelsHit then
    ({ p with takeProfitLevelsHit := p.takeProfitLevelsHit ++ [3] },
      some (.TAKE_PROFIT_L3, 40))
  else if 5 ≤ profitPercent ∧ 2 ∉ p.takeProfitLevelsHit then
    ({ p with takeProfitLevelsHit := p.takeProfitLevelsHit ++ [2] },
      some (.TAKE_PROFIT_L2, 30))
  else if 3 ≤ profitPercent ∧ 1 ∉ p.takeProfitLevelsHit then
    ({ p with takeProfitLevelsHit := p.takeProfitLevelsHit ++ [1] },
      some (.TAKE_PROFIT_L1, 30))
  else
    (p, none)

/-- The high and low water-mark updates at the top of `updatePrice`. -/
def watermarkStep (p : Position) (currentPrice : ℚ) : Position :=
  let p1 := if p.highestPrice < currentPrice
            then { p with highestPrice := currentPrice } else p
  if currentPrice < p1.lowestPrice
  then { p1 with lowestPrice := currentPrice } else p1

/-- Step 2 of `updatePrice`: the break-even move of the stop. -/
def breakEvenStep (p : Position) (profitPercent : ℚ) : Position :=
  if breakEvenMove ≤ profitPercent ∧ p.currentStopLoss < p.entryPrice
  then { p with currentStopLoss := p.entryPrice * (1001 / 1000) }
  else p

/-- Step 3 of `updatePrice`: trailing-stop arming and the one-way raise of
the stop to `highestPrice × (1 − trailingPercent/100)`. -/
def trailingArmStep (p : Position) (profitPercent : ℚ) : Position :=
  if activationProfit ≤ profitPercent then
    let pa := { p with trailingStopActive := true }
    let trailingStopPrice := pa.highestPrice * (1 - trailingPercent / 100)
    if pa.currentStopLoss < trailingStopPrice
    then { pa with currentStopLoss := trailingStopPrice } else pa
  else p

/-- `PositionManager.updatePrice(symbol, currentPrice)` on an existing
position: watermark updates, then in order stop-loss, break-even move,
trailing-stop arming/raising, trailing-stop trigger, take-profit levels.
Returns the mutated position and the decision. -/
def updatePrice (p : Position) (currentPrice : ℚ) : Position × UpdateResult :=
  let profitPercent := (currentPrice - p.entryPrice) / p.entryPrice * 100
  let p2 := watermarkStep p currentPrice
  if profitPercent ≤ initialStopLoss then
    (p2, ⟨.STOP_LOSS, profitPercent, none⟩)
  else
    let p4 := trailingArmStep (breakEvenStep p2 profitPercent) profitPercent
    if p4.trailingStopActive ∧ currentPrice ≤ p4.currentStopLoss then
      (p4, ⟨.TRAILING_STOP, profitPercent, none⟩)
    else
      let r := checkTakeProfitLevels p4 profitPercent
      let res : UpdateResult :=
        match r.2 with
        | some (a, sp) => ⟨a, profitPercent, some sp⟩
        | none => ⟨.HOLD, profitPercent, none⟩
      (r.1, res)

/-- Folding a sequence of price updates over a position, keeping only the
mutated position (the manager state across successive `updatePrice` calls). -/
def applyUpdates (p : Position) (prices : List ℚ) : Position :=
  prices.foldl (fun q c => (updatePrice q c).1) p

/-! ## Position Manager: position sizing (`calculatePositionSize`) -/

/-- Step 1 of `calculatePositionSize`: score-tier base percentage
(`config.positionSizing.scoreBasedSizing` is `true` in the source). -/
def basePercent (score : ℚ) : ℚ :=
  if 90 ≤ score then maxPositionPercent
  else if 80 ≤ score then maxPositionPercent * (4 / 5)
  else if 70 ≤ score then maxPositionPercent * (3 / 5)
  else if 60 ≤ score then maxPositionPercent * (2 / 5)
  else minPositionPercent

/-- Step 3 of `calculatePositionSize`: ATR-based discount.  The guard
`if (atr && currentPrice)` is JavaScript truthiness: both must be present
and nonzero for the discount to apply. -/
def atrAdjust (positionPercent : ℚ) (atr : Option ℚ) (currentPrice : ℚ) : ℚ :=
  match atr with
  | none => positionPercent
  | some a =>
    if a ≠ 0 ∧ currentPrice ≠ 0 then
      let atrPercent := a / currentPrice * 100
      if 5 < atrPercent then positionPercent * (1 / 2)
      else if 3 < atrPercent then positionPercent * (3 / 4)
      else positionPercent
    else positionPercent

/-- Steps 1–4 of `calculatePositionSize`: the target percentage after the
score tier, the regime multiplier, the ATR discount, and the final clamp
to `[minPositionPercent, maxPositionPercent]`. -/
def targetPercent (score regimeMultiplier : ℚ) (atr : Option ℚ)
    (currentPrice : ℚ) : ℚ :=
  max minPositionPercent
    (min maxPositionPercent
      (atrAdjust (basePercent score * regimeMultiplier) atr currentPrice))

/-- The record returned by `calculatePositionSize`. -/
structure SizeResult where
  quantity : ℤ
  value : ℚ
  percent : ℚ
  score : ℚ
  regimeMultiplier : ℚ
deriving DecidableEq

/-- `PositionManager.calculatePositionSize(totalCapital, currentPrice, score,
regimeMultiplier, atr)`: target percentage, whole-share quantity
(`Math.floor`, minimum 1 share), and the resulting actual value/percent. -/
def calculatePositionSize (totalCapital currentPrice score : ℚ)
    (regimeMultiplier : ℚ) (atr : Option ℚ) : SizeResult :=
  let positionPercent := targetPercent score regimeMultiplier atr currentPrice
  let positionValue := totalCapital * (positionPercent / 100)
  let quantity : ℤ := ⌊positionValue / currentPrice⌋
  let finalQuantity := max 1 quantity
  let actualValue := (finalQuantity : ℚ) * currentPrice
  let actualPercent := actualValue / totalCapital * 100
  { quantity := finalQuantity
    value := actualValue
    percent := actualPercent
    score := score
    regimeMultiplier := regimeMultiplier }

/-! ## Trading loop slice: `manageExistingPositions` and `executeSell`

The trader keeps the position manager's map (here an association list
keyed by symbol) and, for each brokerage holding, runs `updatePrice` and
acts on the decision.  `executeSell`, on a successful order, always calls
`positionManager.removePosition(symbol)` — for full and partial sells
alike.  External effects (quote fetch, the order API, the score-based
sell check) enter as parameters `orderSucceeds` and `signalSell`. -/

/-- The position manager's `this.positions` map. -/
abbrev PositionMap := List (String × Position)

/-- Lookup in the position map (`this.positions[symbol]`). -/
def pmFind (m : PositionMap) (symbol : String) : Option Position :=
  match List.find? (fun e => e.1 = symbol) m with
  | some e => some e.2
  | none => none

/-- `PositionManager.hasPosition(symbol)`. -/
def hasPosition (m : PositionMap) (symbol : String) : Bool :=
  (pmFind m symbol).isSome

/-- `PositionManager.removePosition(symbol)`: the map with the record gone. -/
def removePosition (m : PositionMap) (symbol : String) : PositionMap :=
  List.filter (fun e => ¬ e.1 = symbol) m

/-- `this.positions[symbol] = record`: overwrite-or-insert. -/
def pmSet (m : PositionMap) (symbol : String) (p : Position) : PositionMap :=
  removePosition m symbol ++ [(symbol, p)]

/-- One brokerage holding as reported by `kisApi.getBalance()`. -/
structure Holding where
  symbol : String
  avgPrice : ℚ
  qty : ℕ
deriving DecidableEq

/-- The trader-level reason attached to an executed sell
(`manageExistingPositions` passes it to `executeSell`). -/
inductive SellReason where
  | STOP_LOSS
  | TRAILING_STOP
  | TAKE_PROFIT_L1
  | TAKE_PROFIT_L2
  | TAKE_PROFIT_L3
  | SIGNAL_SELL
deriving DecidableEq

/-- Trader-level reason for a fired take-profit action. -/
def reasonOfAction : UpdateAction → SellReason
  | .HOLD => .SIGNAL_SELL
  | .STOP_LOSS => .STOP_LOSS
  | .TRAILING_STOP => .TRAILING_STOP
  | .TAKE_PROFIT_L1 => .TAKE_PROFIT_L1
  | .TAKE_PROFIT_L2 => .TAKE_PROFIT_L2
  | .TAKE_PROFIT_L3 => .TAKE_PROFIT_L3

/-- Whether a sell reason is one of the tiered take-profits. -/
def SellReason.isTakeProfit : SellReason → Bool
  | .TAKE_PROFIT_L1 => true
  | .TAKE_PROFIT_L2 => true
  | .TAKE_PROFIT_L3 => true
  | _ => false

/-- A sell the trader executed in a cycle: the reason and the quantity sent
to the order API. -/
structure SellEvent where
  reason : SellReason
  qty : ℤ
deriving DecidableEq

/-- `EnhancedTrader.manageExistingPositions`, one holding, one cycle
(enhanced-trader.js lines 148–187), composed with the position-map effect
of `executeSell` (line 497: `removePosition` on a successful order).

* the holding is registered with `addPosition(symbol, avgPrice, qty, 50)`
  when the manager has no record for it;
* `updatePrice` runs on the stored record;
* `STOP_LOSS`/`TRAILING_STOP` sell the full `holding.qty`;
* `TAKE_PROFIT_L*` sells `Math.ceil(holding.qty * sellPercent / 100)`
  when that is positive;
* otherwise a score-based signal sell (modelled by `signalSell`) sells the
  full `holding.qty`.
Returns the resulting position map and the executed sell, if any. -/
def manageOneHolding (m : PositionMap) (h : Holding) (currentPrice : ℚ)
    (orderSucceeds signalSell : Bool) : PositionMap × Option SellEvent :=
  let m0 := if hasPosition m h.symbol then m
            else pmSet m h.symbol (addPosition h.avgPrice h.qty 50)
  match pmFind m0 h.symbol with
  | none => (m0, none)
  | some p =>
    let r := updatePrice p currentPrice
    let m1 := pmSet m0 h.symbol r.1
    match r.2.action with
    | .STOP_LOSS =>
      if orderSucceeds then (removePosition m1 h.symbol, some ⟨.STOP_LOSS, h.qty⟩)
      else (m1, none)
    | .TRAILING_STOP =>
      if orderSucceeds then (removePosition m1 h.symbol, some ⟨.TRAILING_STOP, h.qty⟩)
      else (m1, none)
    | .HOLD =>
      if signalSell ∧ orderSucceeds then
        (removePosition m1 h.symbol, some ⟨.SIGNAL_SELL, h.qty⟩)
      else (m1, none)
    | a =>
      let sellQty : ℤ := ⌈(h.qty : ℚ) * (r.2.sellPercent.getD 0 / 100)⌉
      if 0 < sellQty then
        if orderSucceeds then
          (removePosition m1 h.symbol, some ⟨reasonOfAction a, sellQty⟩)
        else (m1, none)
      else (m1, none)

/-! ## Market Regime Filter (market-regime-filter.js)

The two data fetches are modelled as `Option`-valued inputs: `none` is a
fetch failure.  Both `_getVIXData` and `_getSPYTrend` catch their own
errors and substitute defaults, so a fetch failure never reaches the
`catch` in `getMarketRegime`; that outer fallback is modelled separately
as `failSafeRegime`. -/

/-- The SPY trend label. -/
inductive SpyTrend where
  | BULLISH
  | BEARISH
  | NEUTRAL
  | UNKNOWN
deriving DecidableEq

/-- The market-regime label. -/
inductive RegimeLabel where
  | NEUTRAL
  | EXTREME_FEAR
  | FEAR
  | CAUTIOUS
  | GREED
  | BEARISH
  | BULLISH
deriving DecidableEq

/-- The trading session (`getTradingSession().session`). -/
inductive Session where
  | PREMARKET
  | OPENING
  | CORE
  | POWER_HOUR
  | AFTERMARKET
  | CLOSED
deriving DecidableEq

/-- The fields of a `^VIX` quote that `_getVIXData` reads. -/
structure VIXData where
  current : ℚ
  change : ℚ
  previousClose : ℚ
deriving DecidableEq

/-- The result of `_getSPYTrend`. -/
structure SPYAnalysis where
  trend : SpyTrend
  ma20 : Option ℚ
  ma5 : Option ℚ
  currentPrice : Option ℚ
  trendStrength : ℚ
deriving DecidableEq

/-- The regime snapshot returned by `getMarketRegime` (fields that only
echo inputs are omitted). -/
structure Regime where
  regime : RegimeLabel
  vix : Option ℚ
  spyTrend : SpyTrend
  tradingSession : Session
  allowBuy : Bool
  allowSell : Bool
  positionSizeMultiplier : ℚ
deriving DecidableEq

/-- `_getVIXData()`: the fetched quote, or the caught-error default
`{current: 20, change: 0, previousClose: 20}`. -/
def getVIXData (fetched : Option VIXData) : VIXData :=
  fetched.getD ⟨20, 0, 20⟩

/-- Average of the last `n` entries of a list (the final value of
`SMA.calculate({period: n})` on it). -/
def lastAverage (closes : List ℚ) (n : ℕ) : ℚ :=
  ((closes.drop (closes.length - n)).foldl (· + ·) 0) / n

/-- `_getSPYTrend()`: on fetch failure or fewer than 20 closes, trend
`UNKNOWN`; otherwise trend from the last close against SMA20 and SMA5. -/
def getSPYTrend (fetched : Option (List ℚ)) : SPYAnalysis :=
  match fetched with
  | none => ⟨.UNKNOWN, none, none, none, 0⟩
  | some closes =>
    if closes.length < 20 then ⟨.UNKNOWN, none, none, none, 0⟩
    else
      let currentMA20 := lastAverage closes 20
      let currentMA5 := lastAverage closes 5
      let currentPrice := closes.getLastD 0
      let trend : SpyTrend :=
        if currentMA20 < currentPrice ∧ currentMA20 < currentMA5 then .BULLISH
        else if currentPrice < currentMA20 ∧ currentMA5 < currentMA20 then .BEARISH
        else .NEUTRAL
      let trendStrength := (currentPrice - currentMA20) / currentMA20 * 100
      ⟨trend, some currentMA20, some currentMA5, some currentPrice, trendStrength⟩

/-- `getTradingSession()`, keyed by minutes past midnight, US Eastern time. -/
def getTradingSession (totalMinutes : ℕ) : Session :=
  if 240 ≤ totalMinutes ∧ totalMinutes < 570 then .PREMARKET
  else if 570 ≤ totalMinutes ∧ totalMinutes < 630 then .OPENING
  else if 630 ≤ totalMinutes ∧ totalMinutes < 900 then .CORE
  else if 900 ≤ totalMinutes ∧ totalMinutes < 960 then .POWER_HOUR
  else if 960 ≤ totalMinutes ∧ totalMinutes < 1200 then .AFTERMARKET
  else .CLOSED

/-- `_determineRegime(vixData, spyAnalysis, tradingSession)`: VIX tiers,
then the SPY-trend adjustment, then the session gating, then the clamp of
the multiplier to `[0.2, 2.0]`. -/
def determineRegime (vixData : VIXData) (spy : SPYAnalysis) (ts : Session) :
    Regime :=
  let v := vixData.current
  let step1 : RegimeLabel × Bool × ℚ :=
    if 30 ≤ v then (.EXTREME_FEAR, false, 3 / 10)
    else if 25 ≤ v then (.FEAR, true, 1 / 2)
    else if 20 ≤ v then (.CAUTIOUS, true, 3 / 4)
    else if v < 15 then (.GREED, true, 6 / 5)
    else (.NEUTRAL, true, 1)
  let step2 : RegimeLabel × Bool × ℚ :=
    match spy.trend with
    | .BEARISH =>
      ((match step1.1 with
        | .EXTREME_FEAR => .EXTREME_FEAR
        | _ => .BEARISH), false, step1.2.2 * (1 / 2))
    | .BULLISH =>
      ((match step1.1 with
        | .NEUTRAL => .BULLISH
        | .GREED => .BULLISH
        | l => l), step1.2.1, step1.2.2 * (6 / 5))
    | _ => step1
  let step3 : Bool × Bool :=
    match ts with
    | .OPENING => (false, true)
    | .POWER_HOUR => (false, true)
    | .CLOSED => (false, false)
    | .PREMARKET => (false, false)
    | _ => (step2.2.1, true)
  { regime := step2.1
    vix := some v
    spyTrend := spy.trend
    tradingSession := ts
    allowBuy := step3.1
    allowSell := step3.2
    positionSizeMultiplier := max (1 / 5) (min 2 step2.2.2) }

/-- `getMarketRegime()` on a cache miss when no exception escapes
`_analyzeMarketRegime`: the helpers absorb their own fetch failures. -/
def getMarketRegimeFresh (vixFetch : Option VIXData)
    (spyFetch : Option (List ℚ)) (ts : Session) : Regime :=
  determineRegime (getVIXData vixFetch) (getSPYTrend spyFetch) ts

/-- The `catch` branch of `getMarketRegime()`: the fail-safe default
returned when an exception escapes the analysis. -/
def failSafeRegime (ts : Session) : Regime :=
  { regime := .NEUTRAL
    vix := none
    spyTrend := .UNKNOWN
    tradingSession := ts
    allowBuy := false
    allowSell := true
    positionSizeMultiplier := 1 / 2 }

/-! ## Enhanced Multi-Factor Screener (enhanced-multi-factor-screener)

Optional inputs are `Option`s; inside them, fields that JavaScript treats
by truthiness (`indicators`, `ma20`, `macd`, `peRatio`, …) are `Option`s
as well, with `some 0` handled like the falsy `0` where the code's guard
tests the value itself. -/

/-- The technical signal strings the scorer inspects. -/
inductive Signal where
  | MACD_BULLISH
  | MACD_REVERSAL
  | MACD_BEARISH
  | BB_OVERSOLD
  | BB_OVERBOUGHT
  | RSI_OVERSOLD
  | RSI_OVERBOUGHT
  | MA_UPTREND
deriving DecidableEq

/-- News sentiment classification. -/
inductive Sentiment where
  | POSITIVE
  | NEGATIVE
  | NEUTRAL
deriving DecidableEq

/-- A multi-timeframe trend direction. -/
inductive Trend3 where
  | UP
  | DOWN
  | NEUTRAL
deriving DecidableEq

/-- The recommendation labels. -/
inductive Recommendation where
  | STRONG_BUY
  | BUY
  | HOLD
  | SELL
  | STRONG_SELL
deriving DecidableEq

/-- The MACD indicator value (only the histogram is read by the scorer;
it may be absent on short inputs). -/
structure MacdData where
  histogram : Option ℚ
deriving DecidableEq

/-- `technicalData.indicators`. -/
structure IndicatorData where
  ma5 : Option ℚ
  ma10 : Option ℚ
  ma20 : Option ℚ
  macd : Option MacdData
deriving DecidableEq

/-- The day-trading analysis fed to the scorer. -/
structure TechnicalData where
  signals : List Signal
  indicators : Option IndicatorData
  currentPrice : ℚ
  score : ℚ
deriving DecidableEq

/-- Optional fundamental data (`quote.trailingPE` / `quote.pegRatio`). -/
structure FundamentalData where
  peRatio : Option ℚ
  pegRatio : Option ℚ
deriving DecidableEq

/-- A news-analysis result. -/
structure NewsData where
  sentiment : Sentiment
  headlineCount : ℕ
deriving DecidableEq

/-- The volatility fields the scorer reads. -/
structure VolatilityData where
  atrPercent : ℚ
  volumeSpike : Option ℚ
deriving DecidableEq

/-- Hourly and daily trend for the multi-timeframe bonus. -/
structure MultiTimeframeData where
  hourlyTrend : Trend3
  dailyTrend : Trend3
deriving DecidableEq

/-- JavaScript `a > b` on possibly-missing numbers: false when either is
absent. -/
def jsGt (a b : Option ℚ) : Bool :=
  match a, b with
  | some x, some y => y < x
  | _, _ => false

/-- JavaScript `Math.round` (round half toward positive infinity). -/
def jsRound (x : ℚ) : ℤ := ⌊x + 1 / 2⌋

/-- Technical sub-score: MACD state, Bollinger state, RSI state, clamped
to `[-25, 25]`. -/
def technicalScoreOf (td : Option TechnicalData) : ℚ :=
  let s : ℚ :=
    match td with
    | none => 0
    | some t =>
      let s1 : ℚ := if Signal.MACD_BULLISH ∈ t.signals then 10
        else if Signal.MACD_REVERSAL ∈ t.signals then 5
        else if Signal.MACD_BEARISH ∈ t.signals then -10
        else 0
      let s2 : ℚ := if Signal.BB_OVERSOLD ∈ t.signals then 8
        else if Signal.BB_OVERBOUGHT ∈ t.signals then -8
        else 0
      let s3 : ℚ := if Signal.RSI_OVERSOLD ∈ t.signals then 7
        else if Signal.RSI_OVERBOUGHT ∈ t.signals then -7
        else 0
      s1 + s2 + s3
  max (-25) (min 25 s)

/-- Momentum sub-score: MA alignment (full or partial), MACD histogram
sign, price versus MA20, multi-timeframe agreement, clamped to
`[-40, 40]`. -/
def momentumScoreOf (td : Option TechnicalData)
    (mtd : Option MultiTimeframeData) : ℚ :=
  let base : ℚ :=
    match td with
    | none => 0
    | some t =>
      let m1 : ℚ :=
        if Signal.MA_UPTREND ∈ t.signals then 20
        else match t.indicators with
          | some ind =>
            (if jsGt ind.ma5 ind.ma10 then (8 : ℚ) else 0) +
            (if jsGt ind.ma10 ind.ma20 then (7 : ℚ) else 0)
          | none => 0
      let m2 : ℚ :=
        match t.indicators with
        | some ind =>
          match ind.macd with
          | some mc =>
            match mc.histogram with
            | some hist => if 0 < hist then 10 else if hist < 0 then -10 else 0
            | none => 0
          | none => 0
        | none => 0
      let m3 : ℚ :=
        match t.indicators with
        | some ind =>
          match ind.ma20 with
          | some m20 =>
            if m20 = 0 then 0
            else if m20 < t.currentPrice then 10 else -10
          | none => 0
        | none => 0
      m1 + m2 + m3
  let mtf : ℚ :=
    match mtd with
    | some d =>
      if d.hourlyTrend = .UP ∧ d.dailyTrend = .UP then 10
      else if d.hourlyTrend = .DOWN ∧ d.dailyTrend = .DOWN then -10
      else 0
    | none => 0
  max (-40) (min 40 (base + mtf))

/-- Fundamental sub-score: P/E and PEG tiers, clamped to `[0, 10]`. -/
def fundamentalScoreOf (fd : Option FundamentalData) : ℚ :=
  let s : ℚ :=
    match fd with
    | none => 0
    | some f =>
      let s1 : ℚ :=
        match f.peRatio with
        | some pe =>
          if pe = 0 then 0
          else if 0 < pe ∧ pe < 20 then 5
          else if 20 ≤ pe ∧ pe < 35 then 3
          else 0
        | none => 0
      let s2 : ℚ :=
        match f.pegRatio with
        | some peg =>
          if peg = 0 then 0
          else if 0 < peg ∧ peg < 1 then 5
          else if 1 ≤ peg ∧ peg < 2 then 3
          else 0
        | none => 0
      s1 + s2
  max 0 (min 10 s)

/-- Sentiment sub-score: ±15 by classification, scaled by headline count
with `Math.round`, clamped to `[-15, 15]`. -/
def sentimentScoreOf (nd : Option NewsData) : ℚ :=
  let s : ℚ :=
    match nd with
    | none => 0
    | some n =>
      let base : ℚ := if n.sentiment = .POSITIVE then 15
        else if n.sentiment = .NEGATIVE then -15
        else 0
      if 5 ≤ n.headlineCount then (jsRound (base * (6 / 5)) : ℚ)
      else if n.headlineCount ≤ 1 then (jsRound (base * (1 / 2)) : ℚ)
      else base
  max (-15) (min 15 s)

/-- Volatility sub-score: ATR-percent tiers plus the volume-spike bonus,
clamped to `[0, 10]`. -/
def volatilityScoreOf (vd : Option VolatilityData) : ℚ :=
  let s : ℚ :=
    match vd with
    | none => 0
    | some v =>
      let s1 : ℚ := if 3 ≤ v.atrPercent then 10
        else if 2 ≤ v.atrPercent then 7
        else if 1 ≤ v.atrPercent then 4
        else 0
      let s2 : ℚ :=
        match v.volumeSpike with
        | some vs => if 2 < vs then 5 else 0
        | none => 0
      s1 + s2
  max 0 (min 10 s)

/-- `getRecommendation(score)` with the configured thresholds
(strongBuy 75, buy 60, strongSell 10, sell 25). -/
def getRecommendation (score : ℚ) : Recommendation :=
  if 75 ≤ score then .STRONG_BUY
  else if 60 ≤ score then .BUY
  else if score ≤ 10 then .STRONG_SELL
  else if score ≤ 25 then .SELL
  else .HOLD

/-- `getConfidence(score, technicalData, newsData)`. -/
def getConfidence (score : ℚ) (td : Option TechnicalData)
    (nd : Option NewsData) : ℚ :=
  let c : ℚ := 50
  let c := if 85 ≤ score ∨ score ≤ 15 then c + 20
    else if 75 ≤ score ∨ score ≤ 25 then c + 10
    else c
  let c :=
    match td with
    | some t =>
      let bullish := (t.signals.filter (fun s =>
        s ∈ [Signal.MACD_BULLISH, .MA_UPTREND, .RSI_OVERSOLD, .BB_OVERSOLD])).length
      let bearish := (t.signals.filter (fun s =>
        s ∈ [Signal.MACD_BEARISH, .RSI_OVERBOUGHT, .BB_OVERBOUGHT])).length
      let c := if 3 ≤ bullish then c + 15 else if 2 ≤ bullish then c + 10 else c
      if 3 ≤ bearish then c + 15 else if 2 ≤ bearish then c + 10 else c
    | none => c
  let c :=
    match nd, td with
    | some n, some t =>
      if (0 < t.score ↔ n.sentiment = .POSITIVE) then c + 10 else c
    | _, _ => c
  min 100 c

/-- The per-factor breakdown in a scoring result. -/
structure ScoreBreakdown where
  technical : ℚ
  momentum : ℚ
  fundamental : ℚ
  sentiment : ℚ
  volatility : ℚ
deriving DecidableEq

/-- The record returned by `calculateScore`. -/
structure ScoreResult where
  totalScore : ℚ
  rawScore : ℚ
  breakdown : ScoreBreakdown
  recommendation : Recommendation
  confidence : ℚ
deriving DecidableEq

/-- `EnhancedMultiFactorScreener.calculateScore(technicalData,
fundamentalData, newsData, volatilityData, multiTimeframeData)`:
the five bounded sub-scores, their sum, and the normalization
`max(0, min(100, total + 50))`. -/
def calculateScore (td : Option TechnicalData) (fd : Option FundamentalData)
    (nd : Option NewsData) (vd : Option VolatilityData)
    (mtd : Option MultiTimeframeData) : ScoreResult :=
  let technicalScore := technicalScoreOf td
  let momentumScore := momentumScoreOf td mtd
  let fundamentalScore := fundamentalScoreOf fd
  let sentimentScore := sentimentScoreOf nd
  let volatilityScore := volatilityScoreOf vd
  let totalScore := technicalScore + momentumScore + fundamentalScore +
    sentimentScore + volatilityScore
  let normalizedScore := max 0 (min 100 (totalScore + 50))
  { totalScore := normalizedScore
    rawScore := totalScore
    breakdown := ⟨technicalScore, momentumScore, fundamentalScore,
      sentimentScore, volatilityScore⟩
    recommendation := getRecommendation normalizedScore
    confidence := getConfidence normalizedScore td nd }

/-! ## Volatility Analyzer (volatility-analyzer.js) -/

/-- `VolatilityAnalyzer._calculateVolatilityScore(atrPercent, volumeRatio,
atrTrend)`: sequential tier additions, then the clamp to `[0, 100]`. -/
def calculateVolatilityScore (atrPercent volumeRatio atrTrend : ℚ) : ℚ :=
  let score : ℚ := 0
  let score := if 4 ≤ atrPercent then score + 30
    else if 3 ≤ atrPercent then score + 25
    else if 2 ≤ atrPercent then score + 15
    else if 1 ≤ atrPercent then score + 5
    else score
  let score := if 5 ≤ volumeRatio then score + 25
    else if 3 ≤ volumeRatio then score + 20
    else if 2 ≤ volumeRatio then score + 10
    else score
  let score := if 20 < atrTrend then score + 10
    else if atrTrend < -20 then score - 5
    else score
  max 0 (min 100 score)

/-- The ATR-percent tier contribution of `calculateVolatilityScore`. -/
def atrTierScore (atrPercent : ℚ) : ℚ :=
  if 4 ≤ atrPercent then 30
  else if 3 ≤ atrPercent then 25
  else if 2 ≤ atrPercent then 15
  else if 1 ≤ atrPercent then 5
  else 0

/-- The volume-ratio tier contribution of `calculateVolatilityScore`. -/
def volumeTierScore (volumeRatio : ℚ) : ℚ :=
  if 5 ≤ volumeRatio then 25
  else if 3 ≤ volumeRatio then 20
  else if 2 ≤ volumeRatio then 10
  else 0

/-- The ATR-trend adjustment of `calculateVolatilityScore`. -/
def atrTrendAdj (atrTrend : ℚ) : ℚ :=
  if 20 < atrTrend then 10
  else if atrTrend < -20 then -5
  else 0

/-! ## Helper lemmas -/

theorem checkTP_currentStopLoss (p : Position) (pp : ℚ) :
    (checkTakeProfitLevels p pp).1.currentStopLoss = p.currentStopLoss := by
  unfold checkTakeProfitLevels
  split_ifs <;> rfl

theorem checkTP_entryPrice (p : Position) (pp : ℚ) :
    (checkTakeProfitLevels p pp).1.entryPrice = p.entryPrice := by
  unfold checkTakeProfitLevels
  split_ifs <;> rfl

theorem checkTP_trailingStopActive (p : Position) (pp : ℚ) :
    (checkTakeProfitLevels p pp).1.trailingStopActive = p.trailingStopActive := by
  unfold checkTakeProfitLevels
  split_ifs <;> rfl

theorem checkTP_hits_shape (p : Position) (pp : ℚ) :
    (checkTakeProfitLevels p pp).1.takeProfitLevelsHit = p.takeProfitLevelsHit ∨
    ∃ l, l ∉ p.takeProfitLevelsHit ∧
      (checkTakeProfitLevels p pp).1.takeProfitLevelsHit =
        p.takeProfitLevelsHit ++ [l] := by
  unfold checkTakeProfitLevels
  split_ifs with h1 h2 h3
  · exact Or.inr ⟨3, h1.2, rfl⟩
  · exact Or.inr ⟨2, h2.2, rfl⟩
  · exact Or.inr ⟨1, h3.2, rfl⟩
  · exact Or.inl rfl

theorem watermarkStep_fields (p : Position) (c : ℚ) :
    (watermarkStep p c).entryPrice = p.entryPrice ∧
    (watermarkStep p c).currentStopLoss = p.currentStopLoss ∧
    (watermarkStep p c).trailingStopActive = p.trailingStopActive ∧
    (watermarkStep p c).takeProfitLevelsHit = p.takeProfitLevelsHit := by
  unfold watermarkStep
  dsimp only
  split_ifs <;> simp

theorem breakEvenStep_fields (p : Position) (pp : ℚ) :
    (breakEvenStep p pp).entryPrice = p.entryPrice ∧
    (breakEvenStep p pp).trailingStopActive = p.trailingStopActive ∧
    (breakEvenStep p pp).takeProfitLevelsHit = p.takeProfitLevelsHit := by
  unfold breakEvenStep
  split_ifs <;> simp

theorem breakEvenStep_stopLoss_mono (p : Position) (pp : ℚ)
    (hp : 0 < p.entryPrice) :
    p.currentStopLoss ≤ (breakEvenStep p pp).currentStopLoss := by
  unfold breakEvenStep
  split_ifs with h
  · simp only
    nlinarith [h.2]
  · exact le_refl _

theorem trailingArmStep_fields (p : Position) (pp : ℚ) :
    (trailingArmStep p pp).entryPrice = p.entryPrice ∧
    (trailingArmStep p pp).takeProfitLevelsHit = p.takeProfitLevelsHit := by
  unfold trailingArmStep
  dsimp only
  split_ifs <;> simp

theorem trailingArmStep_stopLoss_mono (p : Position) (pp : ℚ) :
    p.currentStopLoss ≤ (trailingArmStep p pp).currentStopLoss := by
  unfold trailingArmStep
  dsimp only
  split_ifs with h h2
  · simp only
    linarith [h2]
  · exact le_refl _
  · exact le_refl _

theorem trailingArmStep_active_mono (p : Position) (pp : ℚ)
    (h : p.trailingStopActive = true) :
    (trailingArmStep p pp).trailingStopActive = true := by
  unfold trailingArmStep
  dsimp only
  split_ifs <;> simp [h]

theorem updatePrice_entryPrice (p : Position) (c : ℚ) :
    ((updatePrice p c).1).entryPrice = p.entryPrice := by
  unfold updatePrice
  dsimp only
  split_ifs with h1 h2
  · exact (watermarkStep_fields p c).1
  · exact ((trailingArmStep_fields _ _).1).trans
      (((breakEvenStep_fields _ _).1).trans (watermarkStep_fields p c).1)
  · exact (checkTP_entryPrice _ _).trans
      (((trailingArmStep_fields _ _).1).trans
        (((breakEvenStep_fields _ _).1).trans (watermarkStep_fields p c).1))

theorem updatePrice_currentStopLoss_mono (p : Position) (c : ℚ)
    (hp : 0 < p.entryPrice) :
    p.currentStopLoss ≤ ((updatePrice p c).1).currentStopLoss := by
  have hw := watermarkStep_fields p c
  have hbe : 0 < (watermarkStep p c).entryPrice := hw.1 ▸ hp
  have step : p.currentStopLoss ≤
      (trailingArmStep (breakEvenStep (watermarkStep p c)
        ((c - p.entryPrice) / p.entryPrice * 100))
        ((c - p.entryPrice) / p.entryPrice * 100)).currentStopLoss := by
    calc p.currentStopLoss
        = (watermarkStep p c).currentStopLoss := (hw.2.1).symm
      _ ≤ (breakEvenStep (watermarkStep p c)
            ((c - p.entryPrice) / p.entryPrice * 100)).currentStopLoss :=
          breakEvenStep_stopLoss_mono _ _ hbe
      _ ≤ _ := trailingArmStep_stopLoss_mono _ _
  unfold updatePrice
  dsimp only
  split_ifs with h1 h2
  · exact hw.2.1.ge
  · exact step
  · exact (checkTP_currentStopLoss _ _).symm ▸ step

theorem updatePrice_active_mono (p : Position) (c : ℚ)
    (h : p.trailingStopActive = true) :
    ((updatePrice p c).1).trailingStopActive = true := by
  have hw := watermarkStep_fields p c
  have hb := breakEvenStep_fields (watermarkStep p c)
    ((c - p.entryPrice) / p.entryPrice * 100)
  have harm := trailingArmStep_active_mono
    (breakEvenStep (watermarkStep p c) ((c - p.entryPrice) / p.entryPrice * 100))
    ((c - p.entryPrice) / p.entryPrice * 100)
    (by rw [hb.2.1, hw.2.2.1]; exact h)
  unfold updatePrice
  dsimp only
  split_ifs with h1 h2
  · rw [hw.2.2.1]; exact h
  · exact harm
  · rw [checkTP_trailingStopActive]; exact harm

theorem updatePrice_hits_shape (p : Position) (c : ℚ) :
    ((updatePrice p c).1).takeProfitLevelsHit = p.takeProfitLevelsHit ∨
    ∃ l, l ∉ p.takeProfitLevelsHit ∧
      ((updatePrice p c).1).takeProfitLevelsHit =
        p.takeProfitLevelsHit ++ [l] := by
  have hw := (watermarkStep_fields p c).2.2.2
  have hb := (breakEvenStep_fields (watermarkStep p c)
    ((c - p.entryPrice) / p.entryPrice * 100)).2.2
  have ha := (trailingArmStep_fields
    (breakEvenStep (watermarkStep p c) ((c - p.entryPrice) / p.entryPrice * 100))
    ((c - p.entryPrice) / p.entryPrice * 100)).2
  have hchain : (trailingArmStep
      (breakEvenStep (watermarkStep p c) ((c - p.entryPrice) / p.entryPrice * 100))
      ((c - p.entryPrice) / p.entryPrice * 100)).takeProfitLevelsHit =
      p.takeProfitLevelsHit := by rw [ha, hb, hw]
  unfold updatePrice
  dsimp only
  split_ifs with h1 h2
  · exact Or.inl hw
  · exact Or.inl hchain
  · rcases checkTP_hits_shape
      (trailingArmStep
        (breakEvenStep (watermarkStep p c) ((c - p.entryPrice) / p.entryPrice * 100))
        ((c - p.entryPrice) / p.entryPrice * 100))
      ((c - p.entryPrice) / p.entryPrice * 100) with hEq | ⟨l, hl, hEq⟩
    · exact Or.inl (hEq.trans hchain)
    · exact Or.inr ⟨l, by rw [hchain] at hl; exact hl, by rw [hEq, hchain]⟩

theorem updatePrice_hits_nodup (p : Position) (c : ℚ)
    (h : p.takeProfitLevelsHit.Nodup) :
    ((updatePrice p c).1).takeProfitLevelsHit.Nodup := by
  rcases updatePrice_hits_shape p c with hEq | ⟨l, hl, hEq⟩
  · rw [hEq]; exact h
  · rw [hEq]
    simp [List.nodup_append, h, hl]

theorem applyUpdates_hits_nodup (prices : List ℚ) (p : Position)
    (h : p.takeProfitLevelsHit.Nodup) :
    (applyUpdates p prices).takeProfitLevelsHit.Nodup := by
  induction prices generalizing p with
  | nil => exact h
  | cons c rest ih =>
    exact ih _ (updatePrice_hits_nodup p c h)

theorem applyUpdates_entry_active (prices : List ℚ) (p : Position)
    (hp : 0 < p.entryPrice) (ha : p.trailingStopActive = true) :
    0 < (applyUpdates p prices).entryPrice ∧
    (applyUpdates p prices).trailingStopActive = true ∧
    p.currentStopLoss ≤ (applyUpdates p prices).currentStopLoss := by
  induction prices generalizing p with
  | nil => exact ⟨hp, ha, le_refl _⟩
  | cons c rest ih =>
    have h1 : 0 < ((updatePrice p c).1).entryPrice := by
      rw [updatePrice_entryPrice]; exact hp
    have h2 := updatePrice_active_mono p c ha
    have h3 := updatePrice_currentStopLoss_mono p c hp
    have := ih ((updatePrice p c).1) h1 h2
    exact ⟨this.1, this.2.1, h3.trans this.2.2⟩

/-! ## Claims -/

/-- Claim C1: for every position and every sequence of `updatePrice` calls,
once `trailingStopActive` has become true the position's `currentStopLoss`
never decreases — neither across a single update nor across any further
sequence of updates — and trailing never deactivates.  (The positive entry
price holds for every position the system creates from a market price.) -/
theorem claim_trailing_stop_ratchet (p : Position) (c : ℚ) (prices : List ℚ)
    (hp : 0 < p.entryPrice) (ha : p.trailingStopActive = true) :
    p.currentStopLoss ≤ ((updatePrice p c).1).currentStopLoss ∧
    p.currentStopLoss ≤ (applyUpdates p prices).currentStopLoss ∧
    (applyUpdates p prices).trailingStopActive = true :=
  ⟨updatePrice_currentStopLoss_mono p c hp,
    (applyUpdates_entry_active prices p hp ha).2.2,
    (applyUpdates_entry_active prices p hp ha).2.1⟩

/-- Witness for C1 at a concrete armed position and price path. -/
theorem claim_trailing_stop_ratchet_witness :
    (Position.mk 100 10 50 102 99 true (10047 / 100) []).currentStopLoss ≤
      ((updatePrice (Position.mk 100 10 50 102 99 true (10047 / 100) []) 98).1).currentStopLoss ∧
    (Position.mk 100 10 50 102 99 true (10047 / 100) []).currentStopLoss ≤
      (applyUpdates (Position.mk 100 10 50 102 99 true (10047 / 100) []) [101, 98]).currentStopLoss ∧
    (applyUpdates (Position.mk 100 10 50 102 99 true (10047 / 100) []) [101, 98]).trailingStopActive = true :=
  claim_trailing_stop_ratchet (Position.mk 100 10 50 102 99 true (10047 / 100) [])
    98 [101, 98] (by norm_num) rfl

/-- Claim C2: a position entered at 100 with the default thresholds, run
through the price sequence 100, 102, 101, 98: `HOLD` at 100; at 102 the
trailing stop arms and the floor becomes 102 × 0.985 = 100.47 with `HOLD`;
`HOLD` again at 101; at 98 the result is `TRAILING_STOP` (not
`STOP_LOSS`, the −2% return being inside the −3% initial stop). -/
theorem claim_trailing_scenario :
    (updatePrice (addPosition 100 10 50) 100).2.action = .HOLD ∧
    (updatePrice (applyUpdates (addPosition 100 10 50) [100]) 102).2.action = .HOLD ∧
    (applyUpdates (addPosition 100 10 50) [100, 102]).trailingStopActive = true ∧
    (applyUpdates (addPosition 100 10 50) [100, 102]).currentStopLoss = 10047 / 100 ∧
    (updatePrice (applyUpdates (addPosition 100 10 50) [100, 102]) 101).2.action = .HOLD ∧
    (applyUpdates (addPosition 100 10 50) [100, 102, 101]).currentStopLoss = 10047 / 100 ∧
    (updatePrice (applyUpdates (addPosition 100 10 50) [100, 102, 101]) 98).2.action = .TRAILING_STOP ∧
    (updatePrice (applyUpdates (addPosition 100 10 50) [100, 102, 101]) 98).2.profitPercent = -2 ∧
    initialStopLoss < -2 := by
  norm_num [applyUpdates, List.foldl, addPosition, updatePrice, watermarkStep,
    breakEvenStep, trailingArmStep, checkTakeProfitLevels, activationProfit,
    initialStopLoss, breakEvenMove, trailingPercent]

/-- Claim C3: over any lifetime starting from `addPosition`, each
take-profit level identifier occurs at most once in
`takeProfitLevelsHit`; and `checkTakeProfitLevels` never increases the
count of an identifier that is already recorded (an already-hit level
never fires again). -/
theorem claim_tp_levels_at_most_once :
    (∀ (e : ℚ) (q : ℕ) (s : ℚ) (prices : List ℚ) (l : ℕ),
      (applyUpdates (addPosition e q s) prices).takeProfitLevelsHit.count l ≤ 1) ∧
    (∀ (p : Position) (pp : ℚ) (l : ℕ), l ∈ p.takeProfitLevelsHit →
      ((checkTakeProfitLevels p pp).1).takeProfitLevelsHit.count l =
        p.takeProfitLevelsHit.count l) := by
  constructor
  · intro e q s prices l
    have hnd : (applyUpdates (addPosition e q s) prices).takeProfitLevelsHit.Nodup :=
      applyUpdates_hits_nodup prices (addPosition e q s) (by simp [addPosition])
    exact List.nodup_iff_count_le_one.mp hnd l
  · intro p pp l hl
    rcases checkTP_hits_shape p pp with hEq | ⟨l', hl', hEq⟩
    · rw [hEq]
    · rw [hEq, List.count_append]
      have hne : l' ≠ l := fun h => hl' (h ▸ hl)
      simp [List.count_singleton', hne]

/-- Witness for C3 at a concrete price path that hits levels 1 and 3, and
a concrete position that already recorded level 1. -/
theorem claim_tp_levels_at_most_once_witness :
    (applyUpdates (addPosition 100 10 50) [104, 112, 104]).takeProfitLevelsHit.count 3 ≤ 1 ∧
    ((checkTakeProfitLevels (Position.mk 100 10 50 104 100 false 97 [1]) 4).1).takeProfitLevelsHit.count 1 =
      (Position.mk 100 10 50 104 100 false 97 [1]).takeProfitLevelsHit.count 1 :=
  ⟨claim_tp_levels_at_most_once.1 100 10 50 [104, 112, 104] 3,
    claim_tp_levels_at_most_once.2 (Position.mk 100 10 50 104 100 false 97 [1]) 4 1
      (by simp)⟩

/-- Claim C10: a single `updatePrice` call appends at most one identifier
to `takeProfitLevelsHit`; and among the levels that are *eligible* (profit
threshold met and identifier not yet hit), the highest-numbered one fires:
level 3 whenever it is eligible; level 2 whenever it is eligible and
level 3 is not (its threshold unmet, or 3 already hit); level 1 whenever
it is eligible and neither level 3 nor level 2 is. -/
theorem claim_tp_single_fire_priority :
    (∀ (p : Position) (c : ℚ),
      ((updatePrice p c).1).takeProfitLevelsHit = p.takeProfitLevelsHit ∨
      ∃ l, ((updatePrice p c).1).takeProfitLevelsHit = p.takeProfitLevelsHit ++ [l]) ∧
    (∀ (p : Position) (pp : ℚ), 10 ≤ pp → 3 ∉ p.takeProfitLevelsHit →
      (checkTakeProfitLevels p pp).2 = some (.TAKE_PROFIT_L3, 40)) ∧
    (∀ (p : Position) (pp : ℚ), 5 ≤ pp → 2 ∉ p.takeProfitLevelsHit →
      pp < 10 ∨ 3 ∈ p.takeProfitLevelsHit →
      (checkTakeProfitLevels p pp).2 = some (.TAKE_PROFIT_L2, 30)) ∧
    (∀ (p : Position) (pp : ℚ), 3 ≤ pp → 1 ∉ p.takeProfitLevelsHit →
      pp < 10 ∨ 3 ∈ p.takeProfitLevelsHit →
      pp < 5 ∨ 2 ∈ p.takeProfitLevelsHit →
      (checkTakeProfitLevels p pp).2 = some (.TAKE_PROFIT_L1, 30)) := by
  refine ⟨?_, ?_, ?_, ?_⟩
  · intro p c
    rcases updatePrice_hits_shape p c with hEq | ⟨l, _, hEq⟩
    · exact Or.inl hEq
    · exact Or.inr ⟨l, hEq⟩
  · intro p pp h10 h3
    unfold checkTakeProfitLevels
    rw [if_pos ⟨h10, h3⟩]
  · intro p pp h5 h2 h3e
    unfold checkTakeProfitLevels
    rw [if_neg (fun hc => h3e.elim (fun hlt => absurd hc.1 (by linarith))
        (fun hmem => hc.2 hmem)),
      if_pos ⟨h5, h2⟩]
  · intro p pp h3 h1 h3e h2e
    unfold checkTakeProfitLevels
    rw [if_neg (fun hc => h3e.elim (fun hlt => absurd hc.1 (by linarith))
        (fun hmem => hc.2 hmem)),
      if_neg (fun hc => h2e.elim (fun hlt => absurd hc.1 (by linarith))
        (fun hmem => hc.2 hmem)),
      if_pos ⟨h3, h1⟩]

/-- Witness for C10: at 12% profit, level 3 fires when unhit; with 3
already hit, level 2 fires even though the level-3 threshold is met; with
3 and 2 already hit, level 1 fires; and at 6% profit level 2 fires by
threshold alone. -/
theorem claim_tp_single_fire_priority_witness :
    (checkTakeProfitLevels (addPosition 100 10 50) 12).2 = some (.TAKE_PROFIT_L3, 40) ∧
    (checkTakeProfitLevels (Position.mk 100 10 50 112 100 false 97 [3]) 12).2 =
      some (.TAKE_PROFIT_L2, 30) ∧
    (checkTakeProfitLevels (Position.mk 100 10 50 112 100 false 97 [3, 2]) 12).2 =
      some (.TAKE_PROFIT_L1, 30) ∧
    (checkTakeProfitLevels (addPosition 100 10 50) 6).2 = some (.TAKE_PROFIT_L2, 30) :=
  ⟨claim_tp_single_fire_priority.2.1 (addPosition 100 10 50) 12 (by norm_num)
      (by simp [addPosition]),
    claim_tp_single_fire_priority.2.2.1 (Position.mk 100 10 50 112 100 false 97 [3])
      12 (by norm_num) (by simp) (Or.inr (by simp)),
    claim_tp_single_fire_priority.2.2.2 (Position.mk 100 10 50 112 100 false 97 [3, 2])
      12 (by norm_num) (by simp) (Or.inr (by simp)) (Or.inr (by simp)),
    claim_tp_single_fire_priority.2.2.1 (addPosition 100 10 50) 6 (by norm_num)
      (by simp [addPosition]) (Or.inl (by norm_num))⟩

/-- Claim C8: for every combination of scorer inputs — including all
optional inputs absent — the returned `totalScore` lies within [0, 100]. -/
theorem claim_total_score_bounded (td : Option TechnicalData)
    (fd : Option FundamentalData) (nd : Option NewsData)
    (vd : Option VolatilityData) (mtd : Option MultiTimeframeData) :
    0 ≤ (calculateScore td fd nd vd mtd).totalScore ∧
    (calculateScore td fd nd vd mtd).totalScore ≤ 100 := by
  unfold calculateScore
  dsimp only
  exact ⟨le_max_left 0 _, max_le (by norm_num) (min_le_left _ _)⟩

/-- Claim C6, counterexample: with total capital 100, price 60 (≤ capital),
score 50, neutral regime and no ATR, `calculatePositionSize` returns
quantity 1 but `percent` = 60, far above `maxPositionPercent` = 5: the
one-share minimum makes the returned percent escape the configured
bounds. -/
theorem claim_position_size_counterexample :
    (60 : ℚ) ≤ 100 ∧
    (calculatePositionSize 100 60 50 1 none).quantity = 1 ∧
    (calculatePositionSize 100 60 50 1 none).percent = 60 ∧
    ¬ (calculatePositionSize 100 60 50 1 none).percent ≤ maxPositionPercent := by
  norm_num [calculatePositionSize, targetPercent, atrAdjust, basePercent,
    minPositionPercent, maxPositionPercent]

/-- Claim C6, amended: `calculatePositionSize` always returns quantity ≥ 1
(with or without `currentPrice ≤ totalCapital`), and the *target*
percentage it sizes from is clamped to
`[minPositionPercent, maxPositionPercent]`; the returned `percent` field,
however, reflects the whole-share minimum of one share and can exceed the
bounds (the counterexample above). -/
theorem claim_position_size_amended (totalCapital currentPrice score
    regimeMultiplier : ℚ) (atr : Option ℚ) :
    1 ≤ (calculatePositionSize totalCapital currentPrice score
      regimeMultiplier atr).quantity ∧
    minPositionPercent ≤ targetPercent score regimeMultiplier atr currentPrice ∧
    targetPercent score regimeMultiplier atr currentPrice ≤ maxPositionPercent := by
  refine ⟨?_, le_max_left _ _, ?_⟩
  · unfold calculatePositionSize
    dsimp only
    exact le_max_left 1 _
  · unfold targetPercent
    exact max_le (by norm_num [minPositionPercent, maxPositionPercent])
      (min_le_left _ _)

/-- Claim C9, counterexample: when the ATR trend falls strongly (−21%),
the code subtracts 5, not 10: with ATR tier 30 and volume tier 25 the
score is 50, while the claimed clamped sum 30 + 25 − 10 would be 45. -/
theorem claim_vol_trend_penalty_counterexample :
    calculateVolatilityScore 4 5 0 = 55 ∧
    calculateVolatilityScore 4 5 (-21) = 50 ∧
    calculateVolatilityScore 4 5 0 - calculateVolatilityScore 4 5 (-21) = 5 ∧
    max 0 (min 100 ((30 : ℚ) + 25 - 10)) = 45 := by
  norm_num [calculateVolatilityScore]

/-- Claim C9, amended: the volatility composite score equals the clamped
sum of an ATR-percent tier of at most 30, a volume-ratio tier of at most
25, and an ATR-trend adjustment that is +10 for a strongly rising trend
(> 20%) but only −5 (not −10) for a strongly falling one (< −20%). -/
theorem atrTierAcc (a : ℚ) :
    (if 4 ≤ a then (0 : ℚ) + 30 else if 3 ≤ a then 0 + 25
      else if 2 ≤ a then 0 + 15 else if 1 ≤ a then 0 + 5 else 0) =
    atrTierScore a := by
  unfold atrTierScore
  split_ifs <;> ring

theorem volumeTierAcc (s v : ℚ) :
    (if 5 ≤ v then s + 25 else if 3 ≤ v then s + 20
      else if 2 ≤ v then s + 10 else s) =
    s + volumeTierScore v := by
  unfold volumeTierScore
  split_ifs <;> ring

theorem trendAdjAcc (s t : ℚ) :
    (if 20 < t then s + 10 else if t < -20 then s - 5 else s) =
    s + atrTrendAdj t := by
  unfold atrTrendAdj
  split_ifs <;> ring

theorem claim_vol_score_decomposition (a v t : ℚ) :
    calculateVolatilityScore a v t =
      max 0 (min 100 (atrTierScore a + volumeTierScore v + atrTrendAdj t)) ∧
    0 ≤ atrTierScore a ∧ atrTierScore a ≤ 30 ∧
    0 ≤ volumeTierScore v ∧ volumeTierScore v ≤ 25 ∧
    (20 < t → atrTrendAdj t = 10) ∧
    (t < -20 → atrTrendAdj t = -5) := by
  refine ⟨?_, ?_, ?_, ?_, ?_, ?_, ?_⟩
  · unfold calculateVolatilityScore
    dsimp only
    rw [atrTierAcc, volumeTierAcc, trendAdjAcc]
  · unfold atrTierScore
    split_ifs <;> norm_num
  · unfold atrTierScore
    split_ifs <;> norm_num
  · unfold volumeTierScore
    split_ifs <;> norm_num
  · unfold volumeTierScore
    split_ifs <;> norm_num
  · intro h
    unfold atrTrendAdj
    rw [if_pos h]
  · intro h
    unfold atrTrendAdj
    rw [if_neg (by linarith), if_pos h]

/-- Witness for the amended C9 at concrete trends on both sides. -/
theorem claim_vol_score_decomposition_witness :
    atrTrendAdj 21 = 10 ∧ atrTrendAdj (-21) = -5 :=
  ⟨(claim_vol_score_decomposition 4 5 21).2.2.2.2.2.1 (by norm_num),
    (claim_vol_score_decomposition 4 5 (-21)).2.2.2.2.2.2 (by norm_num)⟩

/-- Claim C7, counterexample: with both the fear-index quote fetch and the
benchmark history fetch failing (modelled as `none`) during the CORE
session, `getMarketRegime` does not return the fail-safe default: the
helpers catch their own errors and substitute VIX = 20 and trend UNKNOWN,
so the regime computed is CAUTIOUS with buying still allowed and
multiplier 0.75, not the fail-safe's buy-disabled 0.5. -/
theorem claim_regime_failsafe_counterexample :
    getTradingSession 700 = .CORE ∧
    (getMarketRegimeFresh none none .CORE).regime = .CAUTIOUS ∧
    (getMarketRegimeFresh none none .CORE).allowBuy = true ∧
    (getMarketRegimeFresh none none .CORE).allowSell = true ∧
    (getMarketRegimeFresh none none .CORE).positionSizeMultiplier = 3 / 4 ∧
    ¬ ((getMarketRegimeFresh none none .CORE).allowBuy = false ∧
       (getMarketRegimeFresh none none .CORE).positionSizeMultiplier = 1 / 2) := by
  norm_num [getTradingSession, getMarketRegimeFresh, getVIXData, getSPYTrend,
    determineRegime, Option.getD]

/-- Claim C7, amended: a fear-index or benchmark fetch failure is absorbed
inside `_getVIXData`/`_getSPYTrend` (defaults VIX = 20, trend UNKNOWN) and
the normal regime computation proceeds — e.g. both fetches failing in the
CORE session yields CAUTIOUS, buy allowed, multiplier 0.75.  The fail-safe
default (buy disabled, sell allowed, multiplier 0.5) is produced only by
the outer catch of `getMarketRegime`, which fetch failures never reach. -/
theorem claim_regime_failsafe_amended :
    getVIXData none = ⟨20, 0, 20⟩ ∧
    (getSPYTrend none).trend = .UNKNOWN ∧
    getMarketRegimeFresh none none .CORE =
      ⟨.CAUTIOUS, some 20, .UNKNOWN, .CORE, true, true, 3 / 4⟩ ∧
    (failSafeRegime .CORE).allowBuy = false ∧
    (failSafeRegime .CORE).allowSell = true ∧
    (failSafeRegime .CORE).positionSizeMultiplier = 1 / 2 := by
  norm_num [getMarketRegimeFresh, getVIXData, getSPYTrend, determineRegime,
    failSafeRegime, Option.getD]

theorem updatePrice_tp_sellPercent (p : Position) (c : ℚ) :
    ((updatePrice p c).2.action = .TAKE_PROFIT_L1 →
      (updatePrice p c).2.sellPercent = some 30) ∧
    ((updatePrice p c).2.action = .TAKE_PROFIT_L2 →
      (updatePrice p c).2.sellPercent = some 30) ∧
    ((updatePrice p c).2.action = .TAKE_PROFIT_L3 →
      (updatePrice p c).2.sellPercent = some 40) := by
  unfold updatePrice checkTakeProfitLevels
  dsimp only
  split_ifs <;> simp

theorem pmFind_remove (s : String) (m : PositionMap) :
    pmFind (removePosition m s) s = none := by
  induction m with
  | nil => rfl
  | cons e t ih =>
    by_cases h : e.1 = s <;>
      simpa [pmFind, removePosition, List.filter_cons, List.find?_cons, h] using ih

theorem pmFind_append_none (s : String) (l1 l2 : PositionMap)
    (h : pmFind l1 s = none) :
    pmFind (l1 ++ l2) s = pmFind l2 s := by
  induction l1 with
  | nil => rfl
  | cons e t ih =>
    by_cases he : e.1 = s
    · exfalso
      simp [pmFind, List.find?_cons, he] at h
    · have h' : pmFind t s = none := by
        simpa [pmFind, List.find?_cons, he] using h
      simpa [pmFind, List.find?_cons, he] using ih h'

theorem pmFind_set (s : String) (m : PositionMap) (p : Position) :
    pmFind (pmSet m s p) s = some p := by
  unfold pmSet
  rw [pmFind_append_none s _ _ (pmFind_remove s m)]
  simp [pmFind, List.find?]

/-- Claim C4, counterexample: position entered with 20 shares at $100.
Cycle 1 at $103.50 fires level 1 and sells ceil(20 × 30%) = 6 shares (the
successful sell also removes the record).  Next cycle the broker reports
14 remaining shares; at $105.50 level 2 fires and the loop sells
ceil(14 × 30%) = 5 shares — 30% of the *remaining* quantity — whereas 30%
of the original 20 shares would be 6. -/
theorem claim_tp_sell_qty_counterexample :
    let m0 : PositionMap := [("X", addPosition 100 20 50)]
    let c1 := manageOneHolding m0 ⟨"X", 100, 20⟩ (207 / 2) true false
    let c2 := manageOneHolding c1.1 ⟨"X", 100, 14⟩ (211 / 2) true false
    c1.2 = some ⟨.TAKE_PROFIT_L1, 6⟩ ∧
    c2.2 = some ⟨.TAKE_PROFIT_L2, 5⟩ ∧
    (⌈(20 : ℚ) * (30 / 100)⌉ : ℤ) = 6 ∧ (5 : ℤ) ≠ 6 := by
  norm_num [show (⌈(21 : ℚ) / 5⌉ : ℤ) = 5 from by rw [Int.ceil_eq_iff]; norm_num,
    manageOneHolding, hasPosition, pmFind, pmSet, removePosition,
    addPosition, updatePrice, watermarkStep, breakEvenStep, trailingArmStep,
    checkTakeProfitLevels, activationProfit, initialStopLoss, breakEvenMove,
    trailingPercent, reasonOfAction, List.find?, List.filter]

/-- Claim C4, amended: when a take-profit level fires, the trading loop
sells `Math.ceil(holding.qty × sellPercent/100)` — the configured percent
of the broker's *current* holding quantity at that cycle (which, after
earlier partial sells, is the remaining quantity), with the configured
percents 30%/30%/40% for levels 1/2/3 — not a percentage of the original
entry quantity. -/
theorem claim_tp_sell_qty_amended (m : PositionMap) (h : Holding) (c : ℚ)
    (ok sig : Bool) (e : SellEvent)
    (hev : (manageOneHolding m h c ok sig).2 = some e) :
    (e.reason = .TAKE_PROFIT_L1 → e.qty = ⌈(h.qty : ℚ) * (30 / 100)⌉) ∧
    (e.reason = .TAKE_PROFIT_L2 → e.qty = ⌈(h.qty : ℚ) * (30 / 100)⌉) ∧
    (e.reason = .TAKE_PROFIT_L3 → e.qty = ⌈(h.qty : ℚ) * (40 / 100)⌉) := by
  unfold manageOneHolding at hev
  dsimp only at hev
  cases hfind : pmFind (if hasPosition m h.symbol = true then m
      else pmSet m h.symbol (addPosition h.avgPrice h.qty 50)) h.symbol with
  | none =>
    rw [hfind] at hev
    simp at hev
  | some p =>
    rw [hfind] at hev
    dsimp only at hev
    have hsp := updatePrice_tp_sellPercent p c
    cases hact : (updatePrice p c).2.action <;> rw [hact] at hev <;> dsimp only at hev
    case HOLD =>
      split_ifs at hev <;> injection hev with h2 <;> subst h2 <;> simp
    case STOP_LOSS =>
      split_ifs at hev <;> injection hev with h2 <;> subst h2 <;> simp
    case TRAILING_STOP =>
      split_ifs at hev <;> injection hev with h2 <;> subst h2 <;> simp
    case TAKE_PROFIT_L1 =>
      rw [hsp.1 hact] at hev
      simp only [Option.getD_some] at hev
      split_ifs at hev <;> injection hev with h2 <;> subst h2 <;>
        simp [reasonOfAction]
    case TAKE_PROFIT_L2 =>
      rw [hsp.2.1 hact] at hev
      simp only [Option.getD_some] at hev
      split_ifs at hev <;> injection hev with h2 <;> subst h2 <;>
        simp [reasonOfAction]
    case TAKE_PROFIT_L3 =>
      rw [hsp.2.2 hact] at hev
      simp only [Option.getD_some] at hev
      split_ifs at hev <;> injection hev with h2 <;> subst h2 <;>
        simp [reasonOfAction]

/-- Witness for the amended C4: a holding of 14 remaining shares firing
level 2 sells ceil(14 × 30%) = 5 shares. -/
theorem claim_tp_sell_qty_amended_witness :
    (5 : ℤ) = ⌈((14 : ℕ) : ℚ) * (30 / 100)⌉ := by
  have hev : (manageOneHolding [("X", addPosition 100 14 50)] ⟨"X", 100, 14⟩
      (211 / 2) true false).2 = some ⟨.TAKE_PROFIT_L2, 5⟩ := by
    norm_num [show (⌈(21 : ℚ) / 5⌉ : ℤ) = 5 from by rw [Int.ceil_eq_iff]; norm_num,
      manageOneHolding, hasPosition, pmFind, pmSet, removePosition,
      addPosition, updatePrice, watermarkStep, breakEvenStep, trailingArmStep,
      checkTakeProfitLevels, activationProfit, initialStopLoss, breakEvenMove,
      trailingPercent, reasonOfAction, List.find?, List.filter]
  exact (claim_tp_sell_qty_amended _ _ _ _ _ _ hev).2.1 rfl

/-- Claim C5, counterexample: after a successful *partial* take-profit
sell at level 1 (6 of 20 shares), the position record for the symbol is
gone from the position map — `executeSell` calls `removePosition` on
every successful order, partial or not. -/
theorem claim_position_lifecycle_counterexample :
    let m0 : PositionMap := [("X", addPosition 100 20 50)]
    let c1 := manageOneHolding m0 ⟨"X", 100, 20⟩ (207 / 2) true false
    c1.2 = some ⟨.TAKE_PROFIT_L1, 6⟩ ∧ (6 : ℤ) < 20 ∧
    hasPosition m0 "X" = true ∧ hasPosition c1.1 "X" = false := by
  norm_num [manageOneHolding, hasPosition, pmFind, pmSet, removePosition,
    addPosition, updatePrice, watermarkStep, breakEvenStep, trailingArmStep,
    checkTakeProfitLevels, activationProfit, initialStopLoss, breakEvenMove,
    trailingPercent, reasonOfAction, List.find?, List.filter]

/-- Claim C5, amended: the position record is removed exactly on every
*successful* sell order — stop-loss, trailing-stop, signal sell, and also
partial take-profit sells at levels 1 and 2; when no sell is executed in
the cycle the record (re-registered from the holding when absent)
remains. -/
theorem claim_position_lifecycle_amended (m : PositionMap) (h : Holding)
    (c : ℚ) (ok sig : Bool) :
    ((manageOneHolding m h c ok sig).2.isSome = true →
      hasPosition (manageOneHolding m h c ok sig).1 h.symbol = false) ∧
    ((manageOneHolding m h c ok sig).2 = none →
      hasPosition (manageOneHolding m h c ok sig).1 h.symbol = true) := by
  unfold manageOneHolding
  dsimp only
  cases hfind : pmFind (if hasPosition m h.symbol = true then m
      else pmSet m h.symbol (addPosition h.avgPrice h.qty 50)) h.symbol with
  | none =>
    dsimp only
    constructor
    · intro habs
      simp at habs
    · intro _
      by_cases hhas : hasPosition m h.symbol
      · rw [if_pos hhas]
        exact hhas
      · rw [if_neg hhas]
        simp [hasPosition, pmFind_set]
  | some p =>
    dsimp only
    cases hact : (updatePrice p c).2.action <;>
      dsimp only <;>
      split_ifs <;>
      constructor <;>
      intro hx <;>
      simp_all [hasPosition, pmFind_remove, pmFind_set]

/-- Witness for the amended C5: the successful partial level-1 sell of the
counterexample leaves no record for the symbol. -/
theorem claim_position_lifecycle_amended_witness :
    hasPosition (manageOneHolding [("X", addPosition 100 20 50)] ⟨"X", 100, 20⟩
      (207 / 2) true false).1 "X" = false := by
  apply (claim_position_lifecycle_amended [("X", addPosition 100 20 50)]
    ⟨"X", 100, 20⟩ (207 / 2) true false).1
  norm_num [manageOneHolding, hasPosition, pmFind, pmSet, removePosition,
    addPosition, updatePrice, watermarkStep, breakEvenStep, trailingArmStep,
    checkTakeProfitLevels, activationProfit, initialStopLoss, breakEvenMove,
    trailingPercent, reasonOfAction, List.find?, List.filter]
